import Mathlib

/-!
Shallow embedding of the struetype font engine (src/struetype.h) in Lean 4,
used to settle the claims about its specification.

Modelling conventions, fixed once here:

* The font buffer is a `List Nat` of byte values; a buffer is well formed
  (`wfBytes`) when every entry is `< 256`.  `data_size` is the list length
  (the C library stores it as a nonnegative `int`).
* C `stt_uint32` arithmetic is `Nat` arithmetic reduced `% 4294967296` at the
  points where the C code computes in 32-bit unsigned; signed 16/32-bit values
  are obtained through `toSigned16` / `toSigned32`.
* Raw pointer reads (the `ttUSHORT`/`ttSHORT`/`ttULONG`/`ttLONG` macros) are
  modelled in two ways, both translated from the same source functions:
  - the total model (`ttUSHORT`, ...) gives an out-of-range byte the value 0
    (in C such a read is undefined behaviour; the total model is used for the
    claims that are about computed values, all of whose witness inputs stay
    in bounds);
  - the memory model (`ttUSHORT_mem`, ...) returns `none` exactly when the C
    code would dereference outside the buffer, and is used for the claims
    about memory safety (C1, C2).
* IEEE float arithmetic is modelled as exact rational arithmetic over `ℚ`.
* The CFF / Type-2 charstring backend is not modelled: `stt_InitFont_internal`
  returns `none` where the C code takes its CFF initialization branch (no
  `glyf` table), and the glyph functions model their TrueType
  (`!info->cff.size`) branches.  All concrete fonts built below are TrueType
  fonts, and universally quantified theorems range over handles of this
  TrueType fragment.
-/

namespace Struetype

/-- Reduction of a `Nat` to C `stt_uint32` range (`% 2^32`). -/
def u32 (n : Nat) : Nat := n % 4294967296

/-- Reduction of a C `int`-valued expression to `stt_uint32` range: the C
conversion of a (possibly negative) signed value to `uint32`. -/
def u32ofInt (i : Int) : Nat := (i.emod 4294967296).toNat

/-- Reinterpretation of a 16-bit unsigned value as C `stt_int16`. -/
def toSigned16 (v : Nat) : Int := if v % 65536 < 32768 then (v % 65536 : Nat) else (v % 65536 : Nat) - 65536

/-- Reinterpretation of a 32-bit unsigned value as C `stt_int32`. -/
def toSigned32 (v : Nat) : Int := if v % 4294967296 < 2147483648 then (v % 4294967296 : Nat) else (v % 4294967296 : Nat) - 4294967296

/-- A font buffer: the bytes of the `.ttf` file. -/
abbrev Bytes := List Nat

/-- Well-formedness of a buffer: every entry is a byte value. -/
def wfBytes (d : Bytes) : Prop := ∀ b ∈ d, b < 256

instance (d : Bytes) : Decidable (wfBytes d) := by
  unfold wfBytes; infer_instance

/-- Total model of reading the byte at (pointer) offset `p`: offsets outside
the buffer (undefined behaviour in C) read as 0. -/
def byteAt (d : Bytes) (p : Int) : Nat :=
  if p < 0 then 0 else d.getD p.toNat 0

/-- Memory model of reading the byte at offset `p`: `none` iff the C code
would dereference outside the buffer. -/
def memByte (d : Bytes) (p : Int) : Option Nat :=
  if 0 ≤ p ∧ p < (d.length : Int) then some (d.getD p.toNat 0) else none

/-- Raw big-endian 16-bit read: the `ttUSHORT` macro-level accessor
(struetype.h line 1286), total model. -/
def ttUSHORT (d : Bytes) (p : Int) : Nat :=
  byteAt d p * 256 + byteAt d (p + 1)

/-- Raw signed 16-bit read, `ttSHORT` (line 1287), total model. -/
def ttSHORT (d : Bytes) (p : Int) : Int :=
  toSigned16 (byteAt d p * 256 + byteAt d (p + 1))

/-- Raw big-endian 32-bit read, `ttULONG` (line 1288), total model. -/
def ttULONG (d : Bytes) (p : Int) : Nat :=
  byteAt d p * 16777216 + byteAt d (p + 1) * 65536 + byteAt d (p + 2) * 256 + byteAt d (p + 3)

/-- Raw signed 32-bit read, `ttLONG` (line 1289), total model. -/
def ttLONG (d : Bytes) (p : Int) : Int :=
  toSigned32 (ttULONG d p)

/-- Raw `ttBYTE` (line 1282), total model. -/
def ttBYTE (d : Bytes) (p : Int) : Nat := byteAt d p

/-- Raw `ttCHAR` (line 1283), total model: reinterpret the byte as `stt_int8`. -/
def ttCHAR (d : Bytes) (p : Int) : Int :=
  if byteAt d p < 128 then (byteAt d p : Int) else (byteAt d p : Int) - 256

/-- Memory model of `ttUSHORT`: `none` iff either byte dereference is outside
the buffer. -/
def ttUSHORT_mem (d : Bytes) (p : Int) : Option Nat := do
  let b0 ← memByte d p
  let b1 ← memByte d (p + 1)
  pure (b0 * 256 + b1)

/-- Memory model of `ttSHORT`. -/
def ttSHORT_mem (d : Bytes) (p : Int) : Option Int := do
  let v ← ttUSHORT_mem d p
  pure (toSigned16 v)

/-!
Bounded ("safe") scalar readers, struetype.h lines 1292-1322.  The C offset
parameter has type `stt_uint32`; the model takes an `Int` (the value of the
C argument expression) and reduces it to `uint32` range on entry, exactly as
the C call conversion does.  The value model returns the `stt_uint8/16/32`
result; the `_mem` variants additionally report (by `none`) when the C body,
having passed its guard, still dereferences outside the buffer — which is
possible because the guard `offset + w - 1 >= data_size` is computed in
wrapping 32-bit arithmetic.
-/

/-- stt__safe_read8 (line 1292), value model. -/
def stt__safe_read8 (d : Bytes) (off : Int) : Nat :=
  let offset := u32ofInt off
  if offset ≥ d.length then 0
  else byteAt d offset

/-- stt__safe_read16 (line 1298), value model. -/
def stt__safe_read16 (d : Bytes) (off : Int) : Nat :=
  let offset := u32ofInt off
  if u32 (offset + 1) ≥ d.length then 0
  else byteAt d offset * 256 + byteAt d (u32 (offset + 1))

/-- stt__safe_read16_signed (line 1304), value model. -/
def stt__safe_read16_signed (d : Bytes) (off : Int) : Int :=
  let offset := u32ofInt off
  if u32 (offset + 1) ≥ d.length then 0
  else toSigned16 (byteAt d offset * 256 + byteAt d (u32 (offset + 1)))

/-- stt__safe_read32 (line 1310), value model. -/
def stt__safe_read32 (d : Bytes) (off : Int) : Nat :=
  let offset := u32ofInt off
  if u32 (offset + 3) ≥ d.length then 0
  else u32 (byteAt d offset * 16777216 + byteAt d (u32 (offset + 1)) * 65536 +
            byteAt d (u32 (offset + 2)) * 256 + byteAt d (u32 (offset + 3)))

/-- stt__safe_read32_signed (line 1317), value model. -/
def stt__safe_read32_signed (d : Bytes) (off : Int) : Int :=
  let offset := u32ofInt off
  if u32 (offset + 3) ≥ d.length then 0
  else toSigned32 (byteAt d offset * 16777216 + byteAt d (u32 (offset + 1)) * 65536 +
                   byteAt d (u32 (offset + 2)) * 256 + byteAt d (u32 (offset + 3)))

/-- stt__safe_read8, memory model: the guard `offset >= data_size` is exact,
so a passed guard always yields an in-bounds access. -/
def stt__safe_read8_mem (d : Bytes) (off : Int) : Option Nat :=
  let offset := u32ofInt off
  if offset ≥ d.length then some 0
  else memByte d offset

/-- stt__safe_read16_mem: the guard `offset + 1 >= (stt_uint32)data_size` is
computed in wrapping 32-bit arithmetic; when it wraps, the body dereferences
`data[offset]` and `data[offset+1]` with `offset` out of bounds (`none`). -/
def stt__safe_read16_mem (d : Bytes) (off : Int) : Option Nat :=
  let offset := u32ofInt off
  if u32 (offset + 1) ≥ d.length then some 0
  else do
    let b0 ← memByte d offset
    let b1 ← memByte d (u32 (offset + 1))
    pure (b0 * 256 + b1)

/-- stt__safe_read32_mem: same wrapping guard, width 4. -/
def stt__safe_read32_mem (d : Bytes) (off : Int) : Option Nat :=
  let offset := u32ofInt off
  if u32 (offset + 3) ≥ d.length then some 0
  else do
    let b0 ← memByte d offset
    let b1 ← memByte d (u32 (offset + 1))
    let b2 ← memByte d (u32 (offset + 2))
    let b3 ← memByte d (u32 (offset + 3))
    pure (u32 (b0 * 16777216 + b1 * 65536 + b2 * 256 + b3))

/-- stt__safe_check_bounds (line 1361): `offset + size <= (stt_uint32)data_size`
in 32-bit unsigned arithmetic. -/
def stt__safe_check_bounds (d : Bytes) (offset : Nat) (size : Int) : Bool :=
  u32 (u32 offset + u32ofInt size) ≤ d.length

/-- stt_tag4 / stt_tag (lines 1366-1367): compare four raw bytes at `p`. -/
def stt_tag (d : Bytes) (p : Nat) (tag : List Nat) : Bool :=
  byteAt d p = tag.getD 0 0 && byteAt d (p + 1) = tag.getD 1 0 &&
  byteAt d (p + 2) = tag.getD 2 0 && byteAt d (p + 3) = tag.getD 3 0

def tag_cmap : List Nat := [99, 109, 97, 112]
def tag_loca : List Nat := [108, 111, 99, 97]
def tag_head : List Nat := [104, 101, 97, 100]
def tag_glyf : List Nat := [103, 108, 121, 102]
def tag_hhea : List Nat := [104, 104, 101, 97]
def tag_hmtx : List Nat := [104, 109, 116, 120]
def tag_kern : List Nat := [107, 101, 114, 110]
def tag_GPOS : List Nat := [71, 80, 79, 83]
def tag_maxp : List Nat := [109, 97, 120, 112]
def tag_ttcf : List Nat := [116, 116, 99, 102]
def tag_typ1 : List Nat := [116, 121, 112, 49]
def tag_OTTO : List Nat := [79, 84, 84, 79]
def tag_true : List Nat := [116, 114, 117, 101]

/-- stt__isfont (line 1369): recognize the leading version tag of a plain
(non-collection) font. `'1',0,0,0` is byte 49 followed by three zeros, and
`0,1,0,0` is the OpenType 1.0 tag. -/
def stt__isfont (font : Bytes) : Bool :=
  stt_tag font 0 [49, 0, 0, 0] || stt_tag font 0 tag_typ1 || stt_tag font 0 tag_OTTO ||
  stt_tag font 0 [0, 1, 0, 0] || stt_tag font 0 tag_true

/-- Loop body of stt__find_table (line 1381): scan the remaining `k` directory
records starting at index `i`; a record that fails the 16-byte bounds check
stops the scan with 0; a tag match returns the record's offset field. -/
def stt__find_table_loop (d : Bytes) (tabledir : Nat) (tag : List Nat) : Nat → Nat → Nat
  | 0, _ => 0
  | k + 1, i =>
    let loc := u32 (tabledir + 16 * i)
    if ¬ stt__safe_check_bounds d loc 16 then 0
    else if stt_tag d loc tag then stt__safe_read32 d (loc + 8)
    else stt__find_table_loop d tabledir tag k (i + 1)

/-- stt__find_table (line 1381): walk the table directory at
`fontstart + 12`, `num_tables` records of 16 bytes, returning the offset
field of the first record whose tag matches, 0 when absent. -/
def stt__find_table (d : Bytes) (fontstart : Nat) (tag : List Nat) : Nat :=
  let num_tables := stt__safe_read16 d ((fontstart : Int) + 4)
  let tabledir := u32 (fontstart + 12)
  stt__find_table_loop d tabledir tag num_tables 0

/-- stt_GetNumberOfFonts_internal (line 1443): 1 for a recognized plain font,
the (signed) count at offset 8 for a version-1/2 `ttcf` collection, 0
otherwise. -/
def stt_GetNumberOfFonts_internal (font : Bytes) : Int :=
  if stt__isfont font then 1
  else if stt_tag font 0 tag_ttcf then
    if ttULONG font 4 = 65536 ∨ ttULONG font 4 = 131072 then ttLONG font 8
    else 0
  else 0

/-- stt_GetFontOffsetForIndex_internal (line 1424). -/
def stt_GetFontOffsetForIndex_internal (font : Bytes) (index : Int) : Int :=
  if stt__isfont font then (if index = 0 then 0 else -1)
  else if stt_tag font 0 tag_ttcf then
    if ttULONG font 4 = 65536 ∨ ttULONG font 4 = 131072 then
      if index ≥ ttLONG font 8 then -1
      else (ttULONG font (12 + index * 4) : Int)
    else -1
  else -1

/-- The TrueType fragment of `stt_fontinfo` (struetype.h line 711).  Table
offsets are kept as their `uint32` values (the C struct stores them in `int`
fields; none of the settled claims depends on the `int` reinterpretation).
The CFF cursor fields are not modelled (see the file comment). -/
structure stt_fontinfo where
  data : Bytes
  fontstart : Nat
  numGlyphs : Nat
  loca : Nat
  head : Nat
  glyf : Nat
  hhea : Nat
  hmtx : Nat
  kern : Nat
  gpos : Nat
  index_map : Nat
  indexToLocFormat : Nat

/-- Loop of stt_InitFont_internal over the cmap encoding records (lines
1577-1597): each record whose platform is Microsoft with a Unicode BMP/full
encoding, or whose platform is Unicode, overwrites `index_map`; a record
failing the 8-byte bounds check breaks the loop.  `STT_PLATFORM_ID_MICROSOFT
= 3`, `STT_PLATFORM_ID_UNICODE = 0`, `STT_MS_EID_UNICODE_BMP = 1`,
`STT_MS_EID_UNICODE_FULL = 10`. -/
def stt__cmap_record_loop (d : Bytes) (cmap : Nat) : Nat → Nat → Nat → Nat
  | 0, _, acc => acc
  | k + 1, i, acc =>
    let encoding_record := u32 (cmap + 4 + 8 * i)
    if ¬ stt__safe_check_bounds d encoding_record 8 then acc
    else
      let acc' :=
        if stt__safe_read16 d (encoding_record : Int) = 3 then
          if stt__safe_read16 d ((encoding_record : Int) + 2) = 1 ∨
             stt__safe_read16 d ((encoding_record : Int) + 2) = 10 then
            u32 (cmap + stt__safe_read32 d ((encoding_record : Int) + 4))
          else acc
        else if stt__safe_read16 d (encoding_record : Int) = 0 then
          u32 (cmap + stt__safe_read32 d ((encoding_record : Int) + 4))
        else acc
      stt__cmap_record_loop d cmap k (i + 1) acc'

/-- stt_InitFont_internal (line 1488), TrueType path.  Returns `none` for the
C function's failure return 0; also returns `none` where the C function would
enter its CFF branch (`glyf` absent), which this embedding does not model. -/
def stt_InitFont_internal (data : Bytes) (fontstart : Nat) : Option stt_fontinfo :=
  let cmap := stt__find_table data fontstart tag_cmap
  let loca := stt__find_table data fontstart tag_loca
  let head := stt__find_table data fontstart tag_head
  let glyf := stt__find_table data fontstart tag_glyf
  let hhea := stt__find_table data fontstart tag_hhea
  let hmtx := stt__find_table data fontstart tag_hmtx
  let kern := stt__find_table data fontstart tag_kern
  let gpos := stt__find_table data fontstart tag_GPOS
  if cmap = 0 ∨ head = 0 ∨ hhea = 0 ∨ hmtx = 0 then none
  else if glyf ≠ 0 then
    if loca = 0 then none
    else
      let t := stt__find_table data fontstart tag_maxp
      let numGlyphs := if t ≠ 0 then stt__safe_read16 data ((t : Int) + 4) else 65535
      let numTables := stt__safe_read16 data ((cmap : Int) + 2)
      let index_map := stt__cmap_record_loop data cmap numTables 0 0
      if index_map = 0 then none
      else
        let indexToLocFormat := stt__safe_read16 data ((head : Int) + 50)
        some ⟨data, fontstart, numGlyphs, loca, head, glyf, hhea, hmtx, kern, gpos,
              index_map, indexToLocFormat⟩
  else none

/-- Binary-search refinement loop of cmap format 4 (lines 1645-1652): while
`entrySelector` is nonzero, halve `searchRange`, probe
`end = read16(search + searchRange*2)` and advance `search` past ends below
the codepoint. -/
def stt__format4_loop (d : Bytes) (cp : Nat) : Nat → Nat → Nat → Nat
  | 0, _, search => search
  | es + 1, searchRange, search =>
    let searchRange' := searchRange / 2
    let endv := stt__safe_read16 d ((search : Int) + searchRange' * 2)
    let search' := if cp > endv then u32 (search + searchRange' * 2) else search
    stt__format4_loop d cp es searchRange' search'

/-- Binary search over cmap format 12/13 group records (lines 1675-1690).
The C loop variables `low`/`high` are `stt_int32`; the caller only enters
this loop with `0 ≤ low < high`, which lets the model carry them as `Nat`
(a nonpositive initial `high` never enters the loop body).  The `while (low
< high)` loop is encoded structurally on the counter `high − low`,
initialized to the entry range size: every iteration shrinks `high − low`
by at least one, so the counter can reach 0 only when `low ≥ high`, where
both the counter encoding and the C loop return 0. -/
def stt__cmap12_search_loop (d : Bytes) (index_map cp format : Nat) :
    Nat → Nat → Nat → Int
  | 0, _, _ => 0
  | s + 1, low, high =>
    if low < high then
      let mid := low + (high - low) / 2
      let start_char := stt__safe_read32 d ((index_map : Int) + 16 + mid * 12)
      let end_char := stt__safe_read32 d ((index_map : Int) + 16 + mid * 12 + 4)
      if cp < start_char then stt__cmap12_search_loop d index_map cp format s low mid
      else if cp > end_char then stt__cmap12_search_loop d index_map cp format s (mid + 1) high
      else
        let start_glyph := stt__safe_read32 d ((index_map : Int) + 16 + mid * 12 + 8)
        if format = 12 then toSigned32 (start_glyph + cp - start_char)
        else toSigned32 start_glyph
    else 0

def stt__cmap12_search (d : Bytes) (index_map cp format : Nat) (low high : Nat) : Int :=
  stt__cmap12_search_loop d index_map cp format (high - low) low high

/-- stt_FindGlyphIndex (line 1605).  The codepoint argument is the value of
the C `int` parameter; the claims range over `[0, 0x10FFFF]`, so the model
takes it as `Nat`.  The return value is the C `int` result. -/
def stt_FindGlyphIndex (info : stt_fontinfo) (unicode_codepoint : Nat) : Int :=
  let d := info.data
  let index_map := info.index_map
  let format := stt__safe_read16 d (index_map : Int)
  if format = 0 then
    let bytes := stt__safe_read16 d ((index_map : Int) + 2)
    if (unicode_codepoint : Int) < (bytes : Int) - 6 then
      (stt__safe_read8 d ((index_map : Int) + 6 + unicode_codepoint) : Int)
    else 0
  else if format = 6 then
    let first := stt__safe_read16 d ((index_map : Int) + 6)
    let count := stt__safe_read16 d ((index_map : Int) + 8)
    if unicode_codepoint ≥ first ∧ unicode_codepoint < first + count then
      (stt__safe_read16 d ((index_map : Int) + 10 + (unicode_codepoint - first) * 2) : Int)
    else 0
  else if format = 2 then 0
  else if format = 4 then
    let segcount := stt__safe_read16 d ((index_map : Int) + 6) / 2
    let searchRange := stt__safe_read16 d ((index_map : Int) + 8) / 2
    let entrySelector := stt__safe_read16 d ((index_map : Int) + 10)
    let rangeShift := stt__safe_read16 d ((index_map : Int) + 12) / 2
    let endCount := u32 (index_map + 14)
    if unicode_codepoint > 65535 then 0
    else
      let search0 :=
        if unicode_codepoint ≥ stt__safe_read16 d ((endCount : Int) + rangeShift * 2)
        then u32 (endCount + rangeShift * 2) else endCount
      let search1 := u32ofInt ((search0 : Int) - 2)
      let search2 := stt__format4_loop d unicode_codepoint entrySelector searchRange search1
      let search3 := u32 (search2 + 2)
      let item := u32ofInt ((search3 : Int) - (endCount : Int)) / 2 % 65536
      let start := stt__safe_read16 d ((index_map : Int) + 14 + segcount * 2 + 2 + 2 * item)
      let last := stt__safe_read16 d ((endCount : Int) + 2 * item)
      if unicode_codepoint < start ∨ unicode_codepoint > last then 0
      else
        let offset := stt__safe_read16 d ((index_map : Int) + 14 + segcount * 6 + 2 + 2 * item)
        if offset = 0 then
          ((unicode_codepoint : Int) +
            stt__safe_read16_signed d ((index_map : Int) + 14 + segcount * 4 + 2 + 2 * item)).emod 65536
        else
          (stt__safe_read16 d ((offset : Int) + ((unicode_codepoint : Int) - (start : Int)) * 2 +
            (index_map : Int) + 14 + segcount * 6 + 2 + 2 * item) : Int)
  else if format = 12 ∨ format = 13 then
    let ngroups := stt__safe_read32 d ((index_map : Int) + 12)
    if toSigned32 ngroups ≤ 0 then 0
    else stt__cmap12_search d index_map unicode_codepoint format 0 (toSigned32 ngroups).toNat
  else 0

/-- stt__GetGlyfOffset (line 1712): resolve a glyph's `glyf` offset through
`loca`; −1 for out-of-range glyphs, unknown loca formats, and zero-length
(empty) glyphs. -/
def stt__GetGlyfOffset (info : stt_fontinfo) (glyph_index : Nat) : Int :=
  if glyph_index ≥ info.numGlyphs then -1
  else if info.indexToLocFormat ≥ 2 then -1
  else
    let g1 : Nat :=
      if info.indexToLocFormat = 0 then
        info.glyf + stt__safe_read16 info.data ((info.loca : Int) + glyph_index * 2) * 2
      else
        info.glyf + stt__safe_read32 info.data ((info.loca : Int) + glyph_index * 4)
    let g2 : Nat :=
      if info.indexToLocFormat = 0 then
        info.glyf + stt__safe_read16 info.data ((info.loca : Int) + glyph_index * 2 + 2) * 2
      else
        info.glyf + stt__safe_read32 info.data ((info.loca : Int) + glyph_index * 4 + 4)
    if g1 = g2 then -1 else (g1 : Nat)

/-- stt_GetGlyphBox (line 1734), TrueType branch: `none` models the C return
0 (out-parameters unwritten); otherwise the four signed-16 box reads at
`g+2..g+8`. -/
def stt_GetGlyphBox (info : stt_fontinfo) (glyph_index : Nat) : Option (Int × Int × Int × Int) :=
  let g := stt__GetGlyfOffset info glyph_index
  if g < 0 then none
  else
    some (stt__safe_read16_signed info.data (g + 2), stt__safe_read16_signed info.data (g + 4),
          stt__safe_read16_signed info.data (g + 6), stt__safe_read16_signed info.data (g + 8))

/-- stt_IsGlyphEmpty (line 1755), TrueType branch: empty iff the glyph has no
`glyf` entry or its `numberOfContours` (a raw `ttSHORT` read) is 0. -/
def stt_IsGlyphEmpty (info : stt_fontinfo) (glyph_index : Nat) : Bool :=
  let g := stt__GetGlyfOffset info glyph_index
  if g < 0 then true
  else ttSHORT info.data g = 0

/-- stt_GetGlyphBitmapBoxSubpixel (line 2830): scale the font-unit box to
pixel bounds (floor/ceil, y flipped); all-zero box when the glyph has none. -/
def stt_GetGlyphBitmapBoxSubpixel (info : stt_fontinfo) (glyph : Nat)
    (scale_x scale_y shift_x shift_y : ℚ) : Int × Int × Int × Int :=
  match stt_GetGlyphBox info glyph with
  | none => (0, 0, 0, 0)
  | some (x0, y0, x1, y1) =>
      (⌊(x0 : ℚ) * scale_x + shift_x⌋, ⌊-(y1 : ℚ) * scale_y + shift_y⌋,
       ⌈(x1 : ℚ) * scale_x + shift_x⌉, ⌈-(y0 : ℚ) * scale_y + shift_y⌉)

/-- Dimension outputs of stt_GetGlyphBitmapSubpixel (line 3822): the
`(width, height, xoff, yoff)` out-parameters.  `none` models the early
`return NULL` for `scale_x == 0 && scale_y == 0`, where the out-parameters
are never written.  The pixel buffer itself (the rasterizer) is outside this
embedding; the four dimension outputs are assigned before rasterization. -/
def stt_GetGlyphBitmapSubpixel_dims (info : stt_fontinfo) (scale_x scale_y shift_x shift_y : ℚ)
    (glyph : Nat) : Option (Int × Int × Int × Int) :=
  let sx := if scale_x = 0 then scale_y else scale_x
  if scale_y = 0 ∧ sx = 0 then none
  else
    let sy := if scale_y = 0 then sx else scale_y
    let (ix0, iy0, ix1, iy1) := stt_GetGlyphBitmapBoxSubpixel info glyph sx sy shift_x shift_y
    some (ix1 - ix0, iy1 - iy0, ix0, iy0)

/-- Dimension outputs of stt_GetGlyphSDF (line 4684): `none` models the
`return NULL` paths (`scale == 0`, or a degenerate unpadded bitmap box);
otherwise the `(width, height, xoff, yoff)` out-parameters after the
padding has been applied.  The SDF pixel computation itself follows these
assignments and is outside this embedding. -/
def stt_GetGlyphSDF_dims (info : stt_fontinfo) (scale : ℚ) (glyph : Nat) (padding : Int) :
    Option (Int × Int × Int × Int) :=
  if scale = 0 then none
  else
    let (ix0, iy0, ix1, iy1) := stt_GetGlyphBitmapBoxSubpixel info glyph scale scale 0 0
    if ix0 = ix1 ∨ iy0 = iy1 then none
    else
      let ix0' := ix0 - padding
      let iy0' := iy0 - padding
      let ix1' := ix1 + padding
      let iy1' := iy1 + padding
      some (ix1' - ix0', iy1' - iy0', ix0', iy0')

/-- Object-space flatness computed by stt_Rasterize (lines 3806, 3809):
`scale = scale_x > scale_y ? scale_y : scale_x` and the value handed to
stt_FlattenCurves is `flatness_in_pixels / scale`. -/
def stt_Rasterize_objspace_flatness (flatness_in_pixels scale_x scale_y : ℚ) : ℚ :=
  let scale := if scale_x > scale_y then scale_y else scale_x
  flatness_in_pixels / scale

/-- Squared threshold computed by stt_FlattenCurves (line 3732) from the
object-space flatness it receives. -/
def stt_FlattenCurves_objspace_flatness_squared (objspace_flatness : ℚ) : ℚ :=
  objspace_flatness * objspace_flatness

/-- stt__tesselate_curve (line 3664): returns the list of points the call
emits.  A call at depth `n > 16` emits nothing; a flat-enough curve emits its
endpoint; otherwise the two de-Casteljau halves are emitted in order.  The
recursion depth is capped, so the model recurses on `17 - n`. -/
def stt__tesselate_curve (x0 y0 x1 y1 x2 y2 objspace_flatness_squared : ℚ) (n : Nat) :
    List (ℚ × ℚ) :=
  let mx := (x0 + 2 * x1 + x2) / 4
  let my := (y0 + 2 * y1 + y2) / 4
  let dx := (x0 + x2) / 2 - mx
  let dy := (y0 + y2) / 2 - my
  if n > 16 then []
  else if dx * dx + dy * dy > objspace_flatness_squared then
    stt__tesselate_curve x0 y0 ((x0 + x1) / 2) ((y0 + y1) / 2) mx my objspace_flatness_squared (n + 1) ++
    stt__tesselate_curve mx my ((x1 + x2) / 2) ((y1 + y2) / 2) x2 y2 objspace_flatness_squared (n + 1)
  else [(x2, y2)]
termination_by 17 - n
decreasing_by
  all_goals simp_wf
  all_goals omega

/-- stt_GetGlyphHMetrics (line 2414), memory model: this function reads with
the raw (unchecked) `ttUSHORT`/`ttSHORT` macros, so the model reports `none`
exactly when one of those dereferences falls outside the buffer.  Both
out-parameters are taken as non-null; the result is
`(advanceWidth, leftSideBearing)`. -/
def stt_GetGlyphHMetrics (info : stt_fontinfo) (glyph_index : Nat) : Option (Int × Int) :=
  match ttUSHORT_mem info.data ((info.hhea : Int) + 34) with
  | none => none
  | some numOfLongHorMetrics =>
    if glyph_index < numOfLongHorMetrics then do
      let a ← ttSHORT_mem info.data ((info.hmtx : Int) + 4 * glyph_index)
      let l ← ttSHORT_mem info.data ((info.hmtx : Int) + 4 * glyph_index + 2)
      pure (a, l)
    else do
      let a ← ttSHORT_mem info.data ((info.hmtx : Int) + 4 * ((numOfLongHorMetrics : Int) - 1))
      let l ← ttSHORT_mem info.data ((info.hmtx : Int) + 4 * (numOfLongHorMetrics : Int) +
                2 * ((glyph_index : Int) - (numOfLongHorMetrics : Int)))
      pure (a, l)

/-- Binary search of stt__GetGlyphKernInfoAdvance (lines 2485-2494) over the
6-byte kern pairs, keyed by the 32-bit `(glyph1 << 16) | glyph2` needle.
`l`/`r` are the C `int` variables (`r` starts at `nPairs - 1`, possibly −1).
The `while (l <= r)` loop is encoded structurally on the counter
`(r + 1 − l).toNat`, the entry range size: the probe `m = (l+r) >> 1` lies
in `[l, r]`, so both `r := m − 1` and `l := m + 1` shrink the range by at
least one, and the counter reaches 0 only when `l > r` — where the counter
encoding and the C loop agree (return 0).  The same encoding is used for
the other `while (l <= r)` searches below. -/
def stt__kern_pair_search_loop (d : Bytes) (kern : Nat) (needle : Nat) :
    Nat → Int → Int → Int
  | 0, _, _ => 0
  | s + 1, l, r =>
    if l ≤ r then
      let m := (l + r) / 2
      let straw := ttULONG d ((kern : Int) + 18 + m * 6)
      if needle < straw then stt__kern_pair_search_loop d kern needle s l (m - 1)
      else if needle > straw then stt__kern_pair_search_loop d kern needle s (m + 1) r
      else ttSHORT d ((kern : Int) + 22 + m * 6)
    else 0

def stt__kern_pair_search (d : Bytes) (kern : Nat) (needle : Nat) (l r : Int) : Int :=
  stt__kern_pair_search_loop d kern needle (r + 1 - l).toNat l r

/-- stt__GetGlyphKernInfoAdvance (line 2468): first `kern` subtable only,
horizontal format 0, binary search over its sorted pairs. -/
def stt__GetGlyphKernInfoAdvance (info : stt_fontinfo) (glyph1 glyph2 : Nat) : Int :=
  if info.kern = 0 then 0
  else if ttUSHORT info.data ((info.kern : Int) + 2) < 1 then 0
  else if ttUSHORT info.data ((info.kern : Int) + 8) ≠ 1 then 0
  else
    let needle := u32 (glyph1 <<< 16 ||| glyph2)
    stt__kern_pair_search info.data info.kern needle 0
      ((ttUSHORT info.data ((info.kern : Int) + 10) : Int) - 1)

/-- Binary search of stt__GetCoverageIndex format 1 (lines 2506-2521) over
the sorted glyph array; −1 when absent. -/
def stt__coverage1_search_loop (d : Bytes) (glyphArray : Nat) (needle : Nat) :
    Nat → Int → Int → Int
  | 0, _, _ => -1
  | s + 1, l, r =>
    if l ≤ r then
      let m := (l + r) / 2
      let glyphID := ttUSHORT d ((glyphArray : Int) + 2 * m)
      if needle < glyphID then stt__coverage1_search_loop d glyphArray needle s l (m - 1)
      else if needle > glyphID then stt__coverage1_search_loop d glyphArray needle s (m + 1) r
      else m
    else -1

def stt__coverage1_search (d : Bytes) (glyphArray : Nat) (needle : Nat) (l r : Int) : Int :=
  stt__coverage1_search_loop d glyphArray needle (r + 1 - l).toNat l r

/-- Binary search of stt__GetCoverageIndex format 2 (lines 2530-2546) over
6-byte range records; −1 when absent. -/
def stt__coverage2_search_loop (d : Bytes) (rangeArray : Nat) (needle : Nat) :
    Nat → Int → Int → Int
  | 0, _, _ => -1
  | s + 1, l, r =>
    if l ≤ r then
      let m := (l + r) / 2
      let rangeRecord := (rangeArray : Int) + 6 * m
      let strawStart := ttUSHORT d rangeRecord
      let strawEnd := ttUSHORT d (rangeRecord + 2)
      if (needle : Int) < strawStart then stt__coverage2_search_loop d rangeArray needle s l (m - 1)
      else if (needle : Int) > strawEnd then stt__coverage2_search_loop d rangeArray needle s (m + 1) r
      else (ttUSHORT d (rangeRecord + 4) : Int) + (needle : Int) - strawStart
    else -1

def stt__coverage2_search (d : Bytes) (rangeArray : Nat) (needle : Nat) (l r : Int) : Int :=
  stt__coverage2_search_loop d rangeArray needle (r + 1 - l).toNat l r

/-- stt__GetCoverageIndex (line 2498): formats 1 and 2; −1 for unsupported
formats and absent glyphs. -/
def stt__GetCoverageIndex (d : Bytes) (coverageTable : Nat) (glyph : Nat) : Int :=
  let coverageFormat := ttUSHORT d (coverageTable : Int)
  if coverageFormat = 1 then
    let glyphCount := ttUSHORT d ((coverageTable : Int) + 2)
    stt__coverage1_search d (coverageTable + 4) glyph 0 ((glyphCount : Int) - 1)
  else if coverageFormat = 2 then
    let rangeCount := ttUSHORT d ((coverageTable : Int) + 2)
    stt__coverage2_search d (coverageTable + 4) glyph 0 ((rangeCount : Int) - 1)
  else -1

/-- Binary search of stt__GetGlyphClass format 2 (lines 2576-2590) over
6-byte class range records; 0 when the glyph lies in no range. -/
def stt__classdef2_search_loop (d : Bytes) (classRangeRecords : Nat) (needle : Nat) :
    Nat → Int → Int → Int
  | 0, _, _ => 0
  | s + 1, l, r =>
    if l ≤ r then
      let m := (l + r) / 2
      let classRangeRecord := (classRangeRecords : Int) + 6 * m
      let strawStart := ttUSHORT d classRangeRecord
      let strawEnd := ttUSHORT d (classRangeRecord + 2)
      if (needle : Int) < strawStart then
        stt__classdef2_search_loop d classRangeRecords needle s l (m - 1)
      else if (needle : Int) > strawEnd then
        stt__classdef2_search_loop d classRangeRecords needle s (m + 1) r
      else (ttUSHORT d (classRangeRecord + 4) : Int)
    else 0

def stt__classdef2_search (d : Bytes) (classRangeRecords : Nat) (needle : Nat) (l r : Int) : Int :=
  stt__classdef2_search_loop d classRangeRecords needle (r + 1 - l).toNat l r

/-- stt__GetGlyphClass (line 2556): formats 1 and 2; class 0 for unassigned
glyphs, −1 for unsupported formats. -/
def stt__GetGlyphClass (d : Bytes) (classDefTable : Nat) (glyph : Nat) : Int :=
  let classDefFormat := ttUSHORT d (classDefTable : Int)
  if classDefFormat = 1 then
    let startGlyphID := ttUSHORT d ((classDefTable : Int) + 2)
    let glyphCount := ttUSHORT d ((classDefTable : Int) + 4)
    if glyph ≥ startGlyphID ∧ glyph < startGlyphID + glyphCount then
      (ttUSHORT d ((classDefTable : Int) + 6 + 2 * (glyph - startGlyphID)) : Int)
    else 0
  else if classDefFormat = 2 then
    let classRangeCount := ttUSHORT d ((classDefTable : Int) + 2)
    stt__classdef2_search d (classDefTable + 4) glyph 0 ((classRangeCount : Int) - 1)
  else -1

/-- Binary search over a GPOS format-1 PairSet (lines 2663-2678): `some x`
models the C `return xAdvance`; `none` a search miss (which breaks to the
next subtable). -/
def stt__gpos_pairvalue_search_loop (d : Bytes) (pairValueArray : Int) (needle : Nat) :
    Nat → Int → Int → Option Int
  | 0, _, _ => none
  | s + 1, l, r =>
    if l ≤ r then
      let m := (l + r) / 2
      let pairValue := pairValueArray + 4 * m
      let secondGlyph := ttUSHORT d pairValue
      if needle < secondGlyph then stt__gpos_pairvalue_search_loop d pairValueArray needle s l (m - 1)
      else if needle > secondGlyph then stt__gpos_pairvalue_search_loop d pairValueArray needle s (m + 1) r
      else some (ttSHORT d (pairValue + 2))
    else none

def stt__gpos_pairvalue_search (d : Bytes) (pairValueArray : Int) (needle : Nat) (l r : Int) :
    Option Int :=
  stt__gpos_pairvalue_search_loop d pairValueArray needle (r + 1 - l).toNat l r

/-- Subtable loop of stt__GetGlyphGPOSInfoAdvance (lines 2634-2713): `some x`
models a C `return` with value `x`; `none` means the loop finished and the
enclosing lookup loop continues. -/
def stt__gpos_subtable_loop (d : Bytes) (lookupTable : Nat) (glyph1 glyph2 : Nat) :
    Nat → Nat → Option Int
  | 0, _ => none
  | k + 1, sti =>
    let subtableOffset := ttUSHORT d ((lookupTable : Int) + 6 + 2 * sti)
    let table := lookupTable + subtableOffset
    let posFormat := ttUSHORT d (table : Int)
    let coverageOffset := ttUSHORT d ((table : Int) + 2)
    let coverageIndex := stt__GetCoverageIndex d (table + coverageOffset) glyph1
    if coverageIndex = -1 then stt__gpos_subtable_loop d lookupTable glyph1 glyph2 k (sti + 1)
    else if posFormat = 1 then
      let valueFormat1 := ttUSHORT d ((table : Int) + 4)
      let valueFormat2 := ttUSHORT d ((table : Int) + 6)
      if valueFormat1 = 4 ∧ valueFormat2 = 0 then
        let pairSetCount := ttUSHORT d ((table : Int) + 8)
        let pairPosOffset := ttUSHORT d ((table : Int) + 10 + 2 * coverageIndex)
        let pairValueTable := (table : Int) + pairPosOffset
        let pairValueCount := ttUSHORT d pairValueTable
        if coverageIndex ≥ pairSetCount then some 0
        else
          match stt__gpos_pairvalue_search d (pairValueTable + 2) glyph2 0
              ((pairValueCount : Int) - 1) with
          | some x => some x
          | none => stt__gpos_subtable_loop d lookupTable glyph1 glyph2 k (sti + 1)
      else some 0
    else if posFormat = 2 then
      let valueFormat1 := ttUSHORT d ((table : Int) + 4)
      let valueFormat2 := ttUSHORT d ((table : Int) + 6)
      if valueFormat1 = 4 ∧ valueFormat2 = 0 then
        let classDef1Offset := ttUSHORT d ((table : Int) + 8)
        let classDef2Offset := ttUSHORT d ((table : Int) + 10)
        let glyph1class := stt__GetGlyphClass d (table + classDef1Offset) glyph1
        let glyph2class := stt__GetGlyphClass d (table + classDef2Offset) glyph2
        let class1Count := ttUSHORT d ((table : Int) + 12)
        let class2Count := ttUSHORT d ((table : Int) + 14)
        if glyph1class < 0 ∨ glyph1class ≥ class1Count then some 0
        else if glyph2class < 0 ∨ glyph2class ≥ class2Count then some 0
        else
          some (ttSHORT d ((table : Int) + 16 + 2 * (glyph1class * (class2Count : Int)) +
                2 * glyph2class))
      else some 0
    else some 0

/-- Lookup loop of stt__GetGlyphGPOSInfoAdvance (lines 2624-2714): skip
lookups whose type is not 2 (Pair Adjustment); 0 after the last lookup. -/
def stt__gpos_lookup_loop (d : Bytes) (lookupList : Nat) (glyph1 glyph2 : Nat) :
    Nat → Nat → Int
  | 0, _ => 0
  | k + 1, i =>
    let lookupOffset := ttUSHORT d ((lookupList : Int) + 2 + 2 * i)
    let lookupTable := lookupList + lookupOffset
    let lookupType := ttUSHORT d (lookupTable : Int)
    if lookupType ≠ 2 then stt__gpos_lookup_loop d lookupList glyph1 glyph2 k (i + 1)
    else
      let subTableCount := ttUSHORT d ((lookupTable : Int) + 4)
      match stt__gpos_subtable_loop d lookupTable glyph1 glyph2 subTableCount 0 with
      | some x => x
      | none => stt__gpos_lookup_loop d lookupList glyph1 glyph2 k (i + 1)

/-- stt__GetGlyphGPOSInfoAdvance (line 2605): version 1.0 check, then the
lookup-list walk. -/
def stt__GetGlyphGPOSInfoAdvance (info : stt_fontinfo) (glyph1 glyph2 : Nat) : Int :=
  if info.gpos = 0 then 0
  else if ttUSHORT info.data (info.gpos : Int) ≠ 1 then 0
  else if ttUSHORT info.data ((info.gpos : Int) + 2) ≠ 0 then 0
  else
    let lookupListOffset := ttUSHORT info.data ((info.gpos : Int) + 8)
    let lookupList := info.gpos + lookupListOffset
    let lookupCount := ttUSHORT info.data (lookupList : Int)
    stt__gpos_lookup_loop info.data lookupList glyph1 glyph2 lookupCount 0

/-- stt_GetGlyphKernAdvance (line 2719): when GPOS is present only the GPOS
contribution is added; the kern table is consulted only in the `else` branch
(GPOS absent). -/
def stt_GetGlyphKernAdvance (info : stt_fontinfo) (g1 g2 : Nat) : Int :=
  if info.gpos ≠ 0 then stt__GetGlyphGPOSInfoAdvance info g1 g2
  else if info.kern ≠ 0 then stt__GetGlyphKernInfoAdvance info g1 g2
  else 0

/-- Vertex kind codes, struetype.h line 824: `STT_vmove=1, STT_vline,
STT_vcurve, STT_vcubic`. -/
def STT_vmove : Nat := 1

def STT_vline : Nat := 2

def STT_vcurve : Nat := 3

def STT_vcubic : Nat := 4

/-- `stt_vertex` (line 835): `short` coordinates plus a type code.  The
`padding` byte is not modelled. -/
structure stt_vertex where
  type : Nat
  x : Int
  y : Int
  cx : Int
  cy : Int
  cx1 : Int
  cy1 : Int
deriving DecidableEq

/-- Cast of a C `stt_int32` expression to `stt_int16` (truncation to the low
16 bits, reinterpreted signed). -/
def i16ofInt (x : Int) : Int := toSigned16 (x.emod 65536).toNat

/-- stt_setvertex (line 1703): store a vertex, casting each coordinate to
`stt_int16`.  The C function leaves `cx1`/`cy1` as they were in the
uninitialized buffer; the TrueType decoder never reads them, and the model
sets them to 0. -/
def stt_setvertex (type : Nat) (x y cx cy : Int) : stt_vertex :=
  ⟨type, i16ofInt x, i16ofInt y, i16ofInt cx, i16ofInt cy, 0, 0⟩

/-- stt__close_shape (line 1767): the vertices appended to close a contour.
`>> 1` on nonnegative-or-negative `stt_int32` midpoints is floor division. -/
def stt__close_shape (was_off start_off : Bool) (sx sy scx scy cx cy : Int) : List stt_vertex :=
  if start_off then
    (if was_off then [stt_setvertex STT_vcurve ((cx + scx) / 2) ((cy + scy) / 2) cx cy] else []) ++
    [stt_setvertex STT_vcurve sx sy scx scy]
  else
    if was_off then [stt_setvertex STT_vcurve sx sy cx cy]
    else [stt_setvertex STT_vline sx sy 0 0]

/-- First pass of stt__GetGlyphShapeTT (lines 1825-1833): expand the
run-length encoded flag bytes into one flag per point, returning the flags
and the advanced cursor.  The accumulator pair is `(flags, flagcount)`. -/
def stt__flags_pass (d : Bytes) : Nat → Int → Nat → Nat → List Nat × Int
  | 0, p, _, _ => ([], p)
  | i + 1, p, flags, flagcount =>
    if flagcount = 0 then
      let flags' := byteAt d p
      if flags' &&& 8 ≠ 0 then
        let fc := byteAt d (p + 1)
        let (rest, pend) := stt__flags_pass d i (p + 2) flags' fc
        (flags' :: rest, pend)
      else
        let (rest, pend) := stt__flags_pass d i (p + 1) flags' 0
        (flags' :: rest, pend)
    else
      let (rest, pend) := stt__flags_pass d i p flags (flagcount - 1)
      (flags :: rest, pend)

/-- X-coordinate pass (lines 1836-1849): per-flag short/long delta decoding,
accumulating an absolute `stt_int32` coordinate and storing its `stt_int16`
cast.  With at most 65536 points and deltas of magnitude below 2^15 the
accumulator stays within `int32` range, so unbounded `Int` is exact. -/
def stt__xcoord_pass (d : Bytes) : List Nat → Int → Int → List Int × Int
  | [], p, _ => ([], p)
  | flags :: rest, p, x =>
    if flags &&& 2 ≠ 0 then
      let dx := byteAt d p
      let x' := if flags &&& 16 ≠ 0 then x + dx else x - dx
      let (xs, pend) := stt__xcoord_pass d rest (p + 1) x'
      (i16ofInt x' :: xs, pend)
    else
      if flags &&& 16 = 0 then
        let x' := x + toSigned16 (byteAt d p * 256 + byteAt d (p + 1))
        let (xs, pend) := stt__xcoord_pass d rest (p + 2) x'
        (i16ofInt x' :: xs, pend)
      else
        let (xs, pend) := stt__xcoord_pass d rest p x
        (i16ofInt x :: xs, pend)

/-- Y-coordinate pass (lines 1852-1865): same as the x pass with flag bits
4 and 32. -/
def stt__ycoord_pass (d : Bytes) : List Nat → Int → Int → List Int × Int
  | [], p, _ => ([], p)
  | flags :: rest, p, y =>
    if flags &&& 4 ≠ 0 then
      let dy := byteAt d p
      let y' := if flags &&& 32 ≠ 0 then y + dy else y - dy
      let (ys, pend) := stt__ycoord_pass d rest (p + 1) y'
      (i16ofInt y' :: ys, pend)
    else
      if flags &&& 32 = 0 then
        let y' := y + toSigned16 (byteAt d p * 256 + byteAt d (p + 1))
        let (ys, pend) := stt__ycoord_pass d rest (p + 2) y'
        (i16ofInt y' :: ys, pend)
      else
        let (ys, pend) := stt__ycoord_pass d rest p y
        (i16ofInt y :: ys, pend)

/-- Vertex-emission pass of stt__GetGlyphShapeTT (lines 1868-1920).  `rem`
is the number of points left (`n - i`); consuming point `i+1` as an on-curve
start decreases it by 2.  When the points are exhausted the final
stt__close_shape call (line 1920) is appended.  A point index just past the
end (the C code's read of `vertices[off+i+1]` scratch memory, indeterminate
in C) reads as 0. -/
def stt__emit_loop (d : Bytes) (endPts : Int) (flagsA : List Nat) (xsA ysA : List Int) :
    Nat → Nat → Nat → Nat → Bool → Bool → Int → Int → Int → Int → Int → Int → List stt_vertex
  | 0, _, _, _, was_off, start_off, sx, sy, scx, scy, cx, cy =>
    stt__close_shape was_off start_off sx sy scx scy cx cy
  | rem + 1, i, j, next_move, was_off, start_off, sx, sy, scx, scy, cx, cy =>
    let flags := flagsA.getD i 0
    let x := xsA.getD i 0
    let y := ysA.getD i 0
    if next_move = i then
      let closed := if i ≠ 0 then stt__close_shape was_off start_off sx sy scx scy cx cy else []
      let start_off' := flags &&& 1 = 0
      let next_move' := 1 + ttUSHORT d (endPts + j * 2)
      if start_off' then
        let scx' := x
        let scy' := y
        if flagsA.getD (i + 1) 0 &&& 1 = 0 then
          let sx' := (x + xsA.getD (i + 1) 0) / 2
          let sy' := (y + ysA.getD (i + 1) 0) / 2
          closed ++ [stt_setvertex STT_vmove sx' sy' 0 0] ++
            stt__emit_loop d endPts flagsA xsA ysA rem (i + 1) (j + 1) next_move' false true
              sx' sy' scx' scy' cx cy
        else
          let sx' := xsA.getD (i + 1) 0
          let sy' := ysA.getD (i + 1) 0
          closed ++ [stt_setvertex STT_vmove sx' sy' 0 0] ++
            stt__emit_loop d endPts flagsA xsA ysA (rem - 1) (i + 2) (j + 1) next_move' false true
              sx' sy' scx' scy' cx cy
      else
        closed ++ [stt_setvertex STT_vmove x y 0 0] ++
          stt__emit_loop d endPts flagsA xsA ysA rem (i + 1) (j + 1) next_move' false false
            x y scx scy cx cy
    else
      if flags &&& 1 = 0 then
        let emitted :=
          if was_off then [stt_setvertex STT_vcurve ((cx + x) / 2) ((cy + y) / 2) cx cy] else []
        emitted ++ stt__emit_loop d endPts flagsA xsA ysA rem (i + 1) j next_move true start_off
          sx sy scx scy x y
      else
        let emitted :=
          if was_off then [stt_setvertex STT_vcurve x y cx cy]
          else [stt_setvertex STT_vline x y 0 0]
        emitted ++ stt__emit_loop d endPts flagsA xsA ysA rem (i + 1) j next_move false start_off
          sx sy scx scy cx cy

/-- Truncation of a real-valued (here: rational-valued) C float toward zero,
the semantics of the C cast to an integer type when in range. -/
def truncQ (q : ℚ) : Int := if 0 ≤ q then ⌊q⌋ else ⌈q⌉

mutual

/-- Composite branch of stt__GetGlyphShapeTT (lines 1921-1997): iterate the
component records while `MORE_COMPONENTS` (bit 5) is set; each component's
vertices are obtained recursively and transformed by the record's matrix.
`sqrtf` is the float square root (line 1964), kept as an uninterpreted
parameter since exact rationals are not closed under square roots; `fuelc`
bounds the component loop (the C loop's own termination relies on reads past
the buffer end returning a flags word without bit 5). -/
def stt__composite_loop (fuel : Nat) (sqrtf : ℚ → ℚ) (info : stt_fontinfo) :
    Nat → Int → List stt_vertex
  | 0, _ => []
  | fuelc + 1, comp =>
    let d := info.data
    let flags := ttUSHORT d comp
    let gidx := ttUSHORT d (comp + 2)
    let comp1 := comp + 4
    let (mtx4, mtx5, comp2) :=
      if flags &&& 2 ≠ 0 then
        if flags &&& 1 ≠ 0 then
          ((ttSHORT d comp1 : ℚ), (ttSHORT d (comp1 + 2) : ℚ), comp1 + 4)
        else
          ((ttCHAR d comp1 : ℚ), (ttCHAR d (comp1 + 1) : ℚ), comp1 + 2)
      else (0, 0, comp1)
    let (mtx0, mtx1, mtx2, mtx3, comp3) :=
      if flags &&& 8 ≠ 0 then
        let s := (ttSHORT d comp2 : ℚ) / 16384
        (s, (0 : ℚ), (0 : ℚ), s, comp2 + 2)
      else if flags &&& 64 ≠ 0 then
        ((ttSHORT d comp2 : ℚ) / 16384, (0 : ℚ), (0 : ℚ),
         (ttSHORT d (comp2 + 2) : ℚ) / 16384, comp2 + 4)
      else if flags &&& 128 ≠ 0 then
        ((ttSHORT d comp2 : ℚ) / 16384, (ttSHORT d (comp2 + 2) : ℚ) / 16384,
         (ttSHORT d (comp2 + 4) : ℚ) / 16384, (ttSHORT d (comp2 + 6) : ℚ) / 16384, comp2 + 8)
      else ((1 : ℚ), (0 : ℚ), (0 : ℚ), (1 : ℚ), comp2)
    let m := sqrtf (mtx0 * mtx0 + mtx1 * mtx1)
    let n := sqrtf (mtx2 * mtx2 + mtx3 * mtx3)
    let comp_verts := stt_GetGlyphShape fuel sqrtf info gidx
    let transformed := comp_verts.map (fun v =>
      { v with
        x := i16ofInt (truncQ (m * (mtx0 * (v.x : ℚ) + mtx2 * (v.y : ℚ) + mtx4))),
        y := i16ofInt (truncQ (n * (mtx1 * (v.x : ℚ) + mtx3 * (v.y : ℚ) + mtx5))),
        cx := i16ofInt (truncQ (m * (mtx0 * (v.cx : ℚ) + mtx2 * (v.cy : ℚ) + mtx4))),
        cy := i16ofInt (truncQ (n * (mtx1 * (v.cx : ℚ) + mtx3 * (v.cy : ℚ) + mtx5))) })
    transformed ++
      (if flags &&& 32 ≠ 0 then stt__composite_loop fuel sqrtf info fuelc comp3 else [])

/-- stt__GetGlyphShapeTT (line 1783): the returned vertex list.  `fuel`
bounds the composite-glyph recursion depth (unbounded in the C source, which
recurses on attacker-controlled component indices); an exhausted fuel yields
the empty list, and every theorem below quantifies over the fuel. -/
def stt__GetGlyphShapeTT (fuel : Nat) (sqrtf : ℚ → ℚ) (info : stt_fontinfo)
    (glyph_index : Nat) : List stt_vertex :=
  match fuel with
  | 0 => []
  | fuel + 1 =>
    let d := info.data
    let g := stt__GetGlyfOffset info glyph_index
    if g < 0 then []
    else
      let numberOfContours := ttSHORT d g
      if numberOfContours > 0 then
        let nc := numberOfContours.toNat
        let endPts : Int := g + 10
        let ins := ttUSHORT d (g + 10 + nc * 2)
        let p0 : Int := g + 10 + nc * 2 + 2 + ins
        let n := 1 + ttUSHORT d (endPts + nc * 2 - 2)
        let (flagsA, p1) := stt__flags_pass d n p0 0 0
        let (xsA, p2) := stt__xcoord_pass d flagsA p1 0
        let (ysA, _) := stt__ycoord_pass d flagsA p2 0
        stt__emit_loop d endPts flagsA xsA ysA n 0 0 0 false false 0 0 0 0 0 0
      else if numberOfContours < 0 then
        stt__composite_loop fuel sqrtf info fuel (g + 10)
      else []

/-- stt_GetGlyphShape (line 2406), TrueType (`!info->cff.size`) dispatch. -/
def stt_GetGlyphShape (fuel : Nat) (sqrtf : ℚ → ℚ) (info : stt_fontinfo)
    (glyph_index : Nat) : List stt_vertex :=
  stt__GetGlyphShapeTT fuel sqrtf info glyph_index

end

/-!
Concrete test fonts.  Each is a complete SFNT buffer: the 12-byte header,
a table directory, and the table bodies at the offsets recorded in the
directory.  They exercise the TrueType path of `stt_InitFont_internal`.
-/

/-- Big-endian 16-bit byte pair. -/
def u16be (n : Nat) : List Nat := [n / 256 % 256, n % 256]

/-- Big-endian 32-bit byte quadruple. -/
def u32be (n : Nat) : List Nat := [n / 16777216 % 256, n / 65536 % 256, n / 256 % 256, n % 256]

/-- A 16-byte table directory record: tag, checksum 0, offset, length. -/
def dirEntry (tag : List Nat) (off len : Nat) : List Nat :=
  tag ++ u32be 0 ++ u32be off ++ u32be len

/-- A 326-byte TrueType font with nine tables.  Layout: header 0-11,
directory 12-155, head 156 (indexToLocFormat 0), hhea at `hheaOff`
(the body at 210 stores numOfLongHorMetrics = 1), maxp 246 (numGlyphs a
parameter), hmtx 252, loca 260 (short: glyph 0 at glyf offsets 0-10,
glyph 1 empty), glyf 266 (glyph 0: zero contours, box (0,0,100,100)),
cmap 276 (one Unicode-platform record at 280, format-0 subtable at 288
whose first glyph byte is `g0`), kern 298 (horizontal format 0, one pair
(1,2) → −80), GPOS 322 (major version 9, i.e. unusable). -/
def mkTestFont (hheaOff numGlyphs g0 : Nat) : Bytes :=
  [0, 1, 0, 0] ++ u16be 9 ++ u16be 0 ++ u16be 0 ++ u16be 0 ++
  dirEntry tag_cmap 276 22 ++
  dirEntry tag_GPOS 322 4 ++
  dirEntry tag_glyf 266 10 ++
  dirEntry tag_head 156 54 ++
  dirEntry tag_hhea hheaOff 36 ++
  dirEntry tag_hmtx 252 8 ++
  dirEntry tag_kern 298 24 ++
  dirEntry tag_loca 260 6 ++
  dirEntry tag_maxp 246 6 ++
  List.replicate 54 0 ++
  List.replicate 34 0 ++ u16be 1 ++
  u32be 0 ++ u16be numGlyphs ++
  u16be 600 ++ u16be 50 ++ u16be 10 ++ u16be 0 ++
  u16be 0 ++ u16be 5 ++ u16be 5 ++
  u16be 0 ++ u16be 0 ++ u16be 0 ++ u16be 100 ++ u16be 100 ++
  u16be 0 ++ u16be 1 ++ u16be 0 ++ u16be 3 ++ u32be 12 ++
  u16be 0 ++ u16be 262 ++ u16be 0 ++ [g0, 0, 0, 0] ++
  u16be 0 ++ u16be 1 ++ u16be 0 ++ u16be 24 ++ u16be 1 ++ u16be 1 ++
  u16be 0 ++ u16be 0 ++ u16be 0 ++ u16be 1 ++ u16be 2 ++ [255, 176] ++
  u16be 9 ++ u16be 0

/-- Test font A: 2 glyphs, codepoint 0 mapped to glyph byte 200, hhea in
bounds. -/
def fontA : Bytes := mkTestFont 210 2 200

/-- Test font B: like A but maxp stores a glyph count of 0. -/
def fontB : Bytes := mkTestFont 210 0 200

/-- Test font C: like A but the directory's hhea offset is 100000, far past
the 326-byte buffer end. -/
def fontC : Bytes := mkTestFont 100000 2 200

/-- A 278-byte TrueType font with seven tables whose cmap carries two
encoding records (`rec0` then `rec1`): header 0-11, directory 12-123,
head 124, hhea 178, maxp 214 (2 glyphs), hmtx 220, loca 228, glyf 234,
cmap 244 with subtables at cmap+20 = 264 and cmap+28 = 272. -/
def mkCmapOrderFont (rec0 rec1 : List Nat) : Bytes :=
  [0, 1, 0, 0] ++ u16be 7 ++ u16be 0 ++ u16be 0 ++ u16be 0 ++
  dirEntry tag_cmap 244 34 ++
  dirEntry tag_glyf 234 10 ++
  dirEntry tag_head 124 54 ++
  dirEntry tag_hhea 178 36 ++
  dirEntry tag_hmtx 220 8 ++
  dirEntry tag_loca 228 6 ++
  dirEntry tag_maxp 214 6 ++
  List.replicate 54 0 ++
  List.replicate 36 0 ++
  u32be 0 ++ u16be 2 ++
  List.replicate 8 0 ++
  List.replicate 6 0 ++
  List.replicate 10 0 ++
  u16be 0 ++ u16be 2 ++ rec0 ++ rec1 ++ List.replicate 14 0

/-- Encoding record: platform Microsoft (3), encoding Unicode BMP (1),
subtable offset 20. -/
def msBmpRecord : List Nat := u16be 3 ++ u16be 1 ++ u32be 20

/-- Encoding record: platform Unicode (0), encoding 4, subtable offset 28. -/
def unicodeRecord : List Nat := u16be 0 ++ u16be 4 ++ u32be 28

/-- Test font D: the Microsoft/Unicode-BMP record appears first, the
Unicode-platform record second. -/
def fontD : Bytes := mkCmapOrderFont msBmpRecord unicodeRecord

/-- Test font D with the two encoding records swapped. -/
def fontDswap : Bytes := mkCmapOrderFont unicodeRecord msBmpRecord

/-- Fallback handle used to project the result of a successful init. -/
def default_fontinfo : stt_fontinfo := ⟨[], 0, 0, 0, 0, 0, 0, 0, 0, 0, 0, 0⟩

/-- The handle `stt_InitFont_internal` builds for font A. -/
def infoA : stt_fontinfo := (stt_InitFont_internal fontA 0).getD default_fontinfo

/-- The handle for font B. -/
def infoB : stt_fontinfo := (stt_InitFont_internal fontB 0).getD default_fontinfo

/-- The handle for font C. -/
def infoC : stt_fontinfo := (stt_InitFont_internal fontC 0).getD default_fontinfo

/-- The handle for font D. -/
def infoD : stt_fontinfo := (stt_InitFont_internal fontD 0).getD default_fontinfo

/-- The handle for the record-swapped font D. -/
def infoDswap : stt_fontinfo := (stt_InitFont_internal fontDswap 0).getD default_fontinfo

/-!
Supporting lemmas: byte-value bounds of the readers over a well-formed
buffer.
-/

theorem byteAt_lt {d : Bytes} (hwf : wfBytes d) (p : Int) : byteAt d p < 256 := by
  unfold byteAt
  split
  · decide
  · rcases Nat.lt_or_ge p.toNat d.length with hlt | hge
    · rw [List.getD_eq_getElem d 0 hlt]
      exact hwf _ (List.getElem_mem hlt)
    · rw [List.getD_eq_default d 0 hge]
      decide

theorem safe_read8_lt {d : Bytes} (hwf : wfBytes d) (off : Int) :
    stt__safe_read8 d off < 256 := by
  simp only [stt__safe_read8]
  split
  · decide
  · exact byteAt_lt hwf _

theorem safe_read16_lt {d : Bytes} (hwf : wfBytes d) (off : Int) :
    stt__safe_read16 d off < 65536 := by
  simp only [stt__safe_read16]
  split
  · decide
  · have h1 := byteAt_lt hwf (u32ofInt off : Int)
    have h2 := byteAt_lt hwf (u32 (u32ofInt off + 1) : Int)
    omega

set_option maxRecDepth 100000

/-!
The claims.
-/

/-- C1: the claim states that the engine never reads a byte of the font
buffer at an offset `≥ N` and that every access is bounds-checked.  The code
violates this: `stt_GetGlyphHMetrics` reads with the raw (unchecked)
`ttUSHORT`/`ttSHORT` macros at `hhea + 34`, and `stt_InitFont` accepts a
directory whose `hhea` offset lies far beyond the buffer.  For the 326-byte
font C (hhea directory offset 100000), init succeeds and the very first read
of `stt_GetGlyphHMetrics` dereferences offset 100034 `≥ N` (the memory model
reports `none`). -/
theorem C1_hmetrics_reads_out_of_bounds :
    stt_InitFont_internal fontC 0 = some infoC ∧
    (infoC.hhea : Int) + 34 ≥ (fontC.length : Int) ∧
    stt_GetGlyphHMetrics infoC 0 = none :=
  ⟨rfl, by decide, rfl⟩

/-- C2: the claim states the safe readers return the big-endian value exactly
when `offset + w ≤ data_size` and 0 whenever `offset + w > data_size`.  The
guard `offset + 1 >= (stt_uint32)data_size` is computed in wrapping 32-bit
arithmetic: at `offset = 0xFFFFFFFF` on a 1-byte buffer, `offset + 2 >
data_size`, yet the guard wraps to `0 >= 1` (false) and the body dereferences
`data[0xFFFFFFFF]`, out of bounds (`none` in the memory model) — instead of
returning 0, the value model yields the junk value 7. -/
theorem C2_safe_read16_guard_wraps :
    stt__safe_read16_mem [7] 4294967295 = none ∧
    ((4294967295 : Int) + 2 > (([7] : Bytes).length : Int)) ∧
    stt__safe_read16 [7] 4294967295 = 7 :=
  ⟨rfl, by decide, rfl⟩

/-- C3 counterexample: the claim states that with both GPOS and kern tables
present, `stt_GetGlyphKernAdvance` returns the sum of the two contributions.
For font A both tables are present, the kern contribution for the pair (1,2)
is −80 and the GPOS contribution is 0, yet the function returns 0, not −80:
the `else if` in its body never consults the kern table when GPOS is
present. -/
theorem C3_gpos_shadows_kern :
    infoA.gpos ≠ 0 ∧ infoA.kern ≠ 0 ∧
    stt__GetGlyphGPOSInfoAdvance infoA 1 2 = 0 ∧
    stt__GetGlyphKernInfoAdvance infoA 1 2 = -80 ∧
    stt_GetGlyphKernAdvance infoA 1 2 = 0 :=
  ⟨by decide, by decide, rfl, rfl, rfl⟩

/-- C3 amended: when a GPOS table is present, `stt_GetGlyphKernAdvance`
returns the GPOS pair-adjustment contribution alone, and its result does not
depend on the kern table at all; the kern table is consulted only when GPOS
is absent. -/
theorem C3_kern_advance_gpos_only (info : stt_fontinfo) (g1 g2 k : Nat)
    (h : info.gpos ≠ 0) :
    stt_GetGlyphKernAdvance info g1 g2 = stt__GetGlyphGPOSInfoAdvance info g1 g2 ∧
    stt_GetGlyphKernAdvance { info with kern := k } g1 g2 =
      stt_GetGlyphKernAdvance info g1 g2 := by
  constructor
  · simp [stt_GetGlyphKernAdvance, h]
  · simp [stt_GetGlyphKernAdvance, h]
    rfl

/-- C3 witness: the amended dispatch at font A and the pair (1,2), with the
kern offset overwritten by 7. -/
theorem C3_kern_advance_gpos_only_witness :
    stt_GetGlyphKernAdvance infoA 1 2 = stt__GetGlyphGPOSInfoAdvance infoA 1 2 ∧
    stt_GetGlyphKernAdvance { infoA with kern := 7 } 1 2 =
      stt_GetGlyphKernAdvance infoA 1 2 :=
  C3_kern_advance_gpos_only infoA 1 2 7 (by decide)

/-- C4 counterexample: the claim states that `stt_InitFont` either fails or
leaves `numGlyphs ≥ 1`.  Font B's maxp table stores a glyph count of 0; init
succeeds (the count is never validated) and the handle has `numGlyphs = 0`. -/
theorem C4_init_succeeds_with_zero_glyphs :
    stt_InitFont_internal fontB 0 = some infoB ∧ infoB.numGlyphs = 0 :=
  ⟨rfl, by decide⟩

/-- C4 amended: `stt_InitFont_internal` either fails or leaves a handle with
`index_map ≠ 0` (the explicit check before returning success); `numGlyphs` is
read from maxp without validation and can be 0. -/
theorem C4_init_index_map_nonzero (data : Bytes) (fontstart : Nat) (info : stt_fontinfo)
    (h : stt_InitFont_internal data fontstart = some info) : info.index_map ≠ 0 := by
  unfold stt_InitFont_internal at h
  simp_all
  obtain ⟨-, -, -, hm, hinfo⟩ := h
  subst hinfo
  simpa using hm

/-- C4 witness: the amended invariant at font A. -/
theorem C4_init_index_map_nonzero_witness : infoA.index_map ≠ 0 :=
  C4_init_index_map_nonzero fontA 0 infoA rfl

/-- C5 counterexample: the claim states `stt_FindGlyphIndex` returns a value
in `[0, numGlyphs)`.  Font A initializes with `numGlyphs = 2`, but its format-0
cmap subtable stores the byte 200 for codepoint 0, which the function returns
unclamped: `200 ≥ 2`. -/
theorem C5_find_glyph_exceeds_numGlyphs :
    stt_InitFont_internal fontA 0 = some infoA ∧ infoA.numGlyphs = 2 ∧
    stt_FindGlyphIndex infoA 0 = 200 ∧
    ¬ stt_FindGlyphIndex infoA 0 < (infoA.numGlyphs : Int) :=
  ⟨rfl, by decide, by decide, by decide⟩

/-- C5 amended: for every handle over a well-formed byte buffer whose cmap
subtable format is not 12 or 13, `stt_FindGlyphIndex` returns a value in
`[0, 0x10000)`; the result is never clamped against `numGlyphs` (formats
12/13 return a group-derived 32-bit value cast to `int`). -/
theorem C5_find_glyph_bounds (info : stt_fontinfo) (cp : Nat) (hwf : wfBytes info.data)
    (h12 : stt__safe_read16 info.data (info.index_map : Int) ≠ 12)
    (h13 : stt__safe_read16 info.data (info.index_map : Int) ≠ 13) :
    0 ≤ stt_FindGlyphIndex info cp ∧ stt_FindGlyphIndex info cp < 65536 := by
  simp only [stt_FindGlyphIndex]
  split_ifs
  all_goals constructor
  all_goals try omega
  · exact_mod_cast Nat.lt_trans (safe_read8_lt hwf _) (by decide)
  · exact_mod_cast safe_read16_lt hwf _
  · exact Int.emod_nonneg _ (by decide)
  · exact Int.emod_lt_of_pos _ (by decide)
  · exact_mod_cast safe_read16_lt hwf _
  · exact Int.emod_nonneg _ (by decide)
  · exact Int.emod_lt_of_pos _ (by decide)
  · exact_mod_cast safe_read16_lt hwf _

/-- C5 witness: the amended bound at font A and codepoint 65. -/
theorem C5_find_glyph_bounds_witness :
    0 ≤ stt_FindGlyphIndex infoA 65 ∧ stt_FindGlyphIndex infoA 65 < 65536 :=
  C5_find_glyph_bounds infoA 65 (by decide) (by decide) (by decide)

/-- C6: the claim (and the function's own documentation, struetype.h line
700: "If an error occurs, -1 is returned") states that −1 is returned for an
unrecognized header.  On the buffer `"xxxx"`, which is neither a recognized
plain font nor a `ttcf` collection, `stt_GetNumberOfFonts_internal` returns
0, not −1. -/
theorem C6_number_of_fonts_zero_on_unrecognized :
    stt__isfont [120, 120, 120, 120] = false ∧
    stt_tag [120, 120, 120, 120] 0 tag_ttcf = false ∧
    stt_GetNumberOfFonts_internal [120, 120, 120, 120] = 0 ∧
    stt_GetNumberOfFonts_internal [120, 120, 120, 120] ≠ -1 :=
  ⟨rfl, rfl, rfl, by decide⟩

/-- C7 counterexample: the claim states the cmap subtable is selected in the
priority order Microsoft/BMP, Microsoft/full, any Unicode record, regardless
of record order.  Font D's first encoding record (at cmap+4 = offset 248) is
Microsoft/Unicode-BMP with subtable offset 20, followed by a Unicode-platform
record with subtable offset 28; init caches `cmap + 28 = 272`, not the
Microsoft record's `cmap + 20 = 264`. -/
theorem C7_priority_violated :
    stt_InitFont_internal fontD 0 = some infoD ∧
    stt__safe_read16 fontD 248 = 3 ∧
    stt__safe_read16 fontD 250 = 1 ∧
    stt__safe_read32 fontD 252 = 20 ∧
    infoD.index_map = 272 ∧ (272 : Nat) ≠ 244 + 20 :=
  ⟨rfl, by decide, by decide, by decide, by decide, by decide⟩

/-- C7 amended: every matching encoding record (Microsoft/Unicode-BMP,
Microsoft/Unicode-full, or any Unicode-platform record) overwrites
`index_map`, so the last matching record in table order wins and the choice
depends on the order of the records: fonts D and D-swapped hold the same two
records in opposite orders (byte-identical outside the two 8-byte records)
and cache different subtables. -/
theorem C7_last_matching_record_wins :
    stt_InitFont_internal fontD 0 = some infoD ∧
    stt_InitFont_internal fontDswap 0 = some infoDswap ∧
    infoD.index_map = 244 + 28 ∧
    infoDswap.index_map = 244 + 20 ∧
    infoD.index_map ≠ infoDswap.index_map ∧
    fontD.take 248 = fontDswap.take 248 ∧
    fontD.drop 264 = fontDswap.drop 264 ∧
    (fontD.drop 248).take 8 = (fontDswap.drop 256).take 8 ∧
    (fontD.drop 256).take 8 = (fontDswap.drop 248).take 8 :=
  ⟨rfl, rfl, by decide, by decide, by decide, by decide, by decide, by decide, by decide⟩

/-- C8 counterexample: the claim states an empty glyph yields a 0×0 bitmap
with zero offsets.  Font A's glyph 0 has a glyf entry with zero contours —
so `stt_IsGlyphEmpty` is true — but a stored bounding box (0,0,100,100);
at unit scale `stt_GetGlyphBitmapSubpixel` reports a 100×100 bitmap with
`yoff = −100`. -/
theorem C8_empty_glyph_nonzero_bitmap :
    stt_IsGlyphEmpty infoA 0 = true ∧
    ¬ stt__GetGlyfOffset infoA 0 < 0 ∧
    ttSHORT infoA.data (stt__GetGlyfOffset infoA 0) = 0 ∧
    stt_GetGlyphBitmapSubpixel_dims infoA 1 1 0 0 0 = some (100, 100, 0, -100) ∧
    stt_GetGlyphBitmapSubpixel_dims infoA 1 1 0 0 0 ≠ some (0, 0, 0, 0) := by
  refine ⟨by decide, by decide, by decide, ?_, ?_⟩
  all_goals
    have hbox : stt_GetGlyphBox infoA 0 = some (0, 0, 100, 100) := by decide
  · simp only [stt_GetGlyphBitmapSubpixel_dims, stt_GetGlyphBitmapBoxSubpixel, hbox]
    norm_num
  · simp only [stt_GetGlyphBitmapSubpixel_dims, stt_GetGlyphBitmapBoxSubpixel, hbox]
    norm_num

/-- C8 amended: an empty glyph (`stt_IsGlyphEmpty`) always decodes to zero
vertices; its bitmap is 0×0 with `xoff = yoff = 0` when the glyph has no
glyf entry (`stt__GetGlyfOffset < 0`, e.g. zero-length loca range), but a
zero-contour glyph with a nonzero stored bounding box reports a nonzero
bitmap box. -/
theorem C8_empty_glyph_shape_and_box (fuel : Nat) (sqrtf : ℚ → ℚ) (info : stt_fontinfo)
    (glyph : Nat) (sx sy hx hy : ℚ) (h : stt_IsGlyphEmpty info glyph = true) :
    stt_GetGlyphShape (fuel + 1) sqrtf info glyph = [] ∧
    (stt__GetGlyfOffset info glyph < 0 →
      stt_GetGlyphBitmapSubpixel_dims info sx sy hx hy glyph = none ∨
      stt_GetGlyphBitmapSubpixel_dims info sx sy hx hy glyph = some (0, 0, 0, 0)) := by
  simp only [stt_IsGlyphEmpty] at h
  constructor
  · simp only [stt_GetGlyphShape, stt__GetGlyphShapeTT]
    by_cases hgl : stt__GetGlyfOffset info glyph < 0
    · simp [hgl]
    · simp only [hgl, if_false, decide_eq_true_eq] at h
      simp [hgl, h]
  · intro hgl
    have hbox : stt_GetGlyphBox info glyph = none := by
      simp [stt_GetGlyphBox, hgl]
    simp only [stt_GetGlyphBitmapSubpixel_dims, stt_GetGlyphBitmapBoxSubpixel, hbox]
    split_ifs <;> simp

/-- C8 witness: font A's glyph 1 has equal loca offsets, is empty, decodes
to zero vertices, and reports the 0×0 bitmap at unit scale. -/
theorem C8_empty_glyph_shape_and_box_witness :
    stt_GetGlyphShape (0 + 1) (fun _ => 0) infoA 1 = [] ∧
    (stt__GetGlyfOffset infoA 1 < 0 →
      stt_GetGlyphBitmapSubpixel_dims infoA 1 1 0 0 1 = none ∨
      stt_GetGlyphBitmapSubpixel_dims infoA 1 1 0 0 1 = some (0, 0, 0, 0)) :=
  C8_empty_glyph_shape_and_box 0 (fun _ => 0) infoA 1 1 1 0 0 (by decide)

/-- C9 counterexample: the claim states the object-space flatness equals
`flatness_in_pixels / max(scale_x, scale_y)`.  At `scale_x = 2, scale_y = 1`
and flatness 0.35, `stt_Rasterize` divides by the smaller scale (1), not the
larger (2). -/
theorem C9_flatness_divides_by_min :
    stt_Rasterize_objspace_flatness (35/100) 2 1 ≠ (35/100) / max (2 : ℚ) 1 := by
  unfold stt_Rasterize_objspace_flatness
  rw [max_eq_left (by norm_num : (1 : ℚ) ≤ 2)]
  norm_num

/-- C9 amended: the object-space flatness handed to the flattener is
`flatness_in_pixels / min(scale_x, scale_y)` (the smaller scale), and the
flattener squares it before comparing squared distances against it. -/
theorem C9_flatness_min_and_square (f sx sy : ℚ) :
    stt_Rasterize_objspace_flatness f sx sy = f / min sx sy ∧
    stt_FlattenCurves_objspace_flatness_squared (f / min sx sy) =
      (f / min sx sy) * (f / min sx sy) := by
  constructor
  · unfold stt_Rasterize_objspace_flatness
    split_ifs with h
    · rw [min_eq_right (le_of_lt h)]
    · rw [min_eq_left (not_lt.mp h)]
  · rfl

/-- C10: `stt_GetGlyphSDF` returns NULL (no bitmap, `none`) whenever the
scale is 0 or the unpadded bitmap box is degenerate (`ix0 = ix1` or
`iy0 = iy1`); the padding is applied only after this check, so no padding
value can turn an empty glyph into a nonempty SDF bitmap. -/
theorem C10_sdf_none_on_degenerate (info : stt_fontinfo) (scale : ℚ) (glyph : Nat)
    (padding : Int) (ix0 iy0 ix1 iy1 : Int)
    (hbox : stt_GetGlyphBitmapBoxSubpixel info glyph scale scale 0 0 = (ix0, iy0, ix1, iy1))
    (h : scale = 0 ∨ ix0 = ix1 ∨ iy0 = iy1) :
    stt_GetGlyphSDF_dims info scale glyph padding = none := by
  simp only [stt_GetGlyphSDF_dims, hbox]
  rcases h with h | h | h
  · simp [h]
  · split_ifs <;> simp_all
  · split_ifs <;> simp_all

/-- C10 witness: font A's glyph 1 has an empty bitmap box; the SDF at unit
scale with padding 5 is NULL. -/
theorem C10_sdf_none_on_degenerate_witness :
    stt_GetGlyphSDF_dims infoA 1 1 5 = none := by
  have hbox : stt_GetGlyphBitmapBoxSubpixel infoA 1 1 1 0 0 = (0, 0, 0, 0) := by
    have h : stt_GetGlyphBox infoA 1 = none := by decide
    simp [stt_GetGlyphBitmapBoxSubpixel, h]
  exact C10_sdf_none_on_degenerate infoA 1 1 5 0 0 0 0 hbox (Or.inr (Or.inl rfl))

end Struetype
